import Mathlib

/-!
# Verification of the WhatsApp connection reconciliation engine

Shallow embedding of the session-reconciliation core of the repository
(`backend/src/services/whatsappSessionService.ts`,
`backend/src/services/settingsService.ts` (WahaSyncService part),
`backend/src/middleware/quotaMiddleware.ts`) together with proofs of the
frozen claims about it.

Conventions of the embedding:
* TypeScript `string | undefined`/nullable columns become `Option String`;
  JavaScript truthiness of strings (`""` is falsy) is captured by the
  helpers `jsOptStr` / `jsOrStr`.
* `Date` timestamps become `Nat` (milliseconds); `Date` values are always
  truthy in JS, so they are passed through unchanged by `x || null`.
* The Prisma `whatsAppSession` table (unique key `name`) becomes a
  `List Session`; `findFirst`/`findUnique` become `List.find?` and
  `upsert` a map-replace / append.
* Asynchronous remote calls become environment-supplied `RemoteResult`
  values, and the list of remote calls an endpoint performs is returned
  explicitly so that "no remote call was made" is a provable statement.
-/

namespace Astra

/-! ## JavaScript string-truthiness helpers -/

/-- JS `x || null` / `x || undefined` on an optional string: the empty
string is falsy and collapses to "absent". -/
def jsOptStr : Option String → Option String
  | some s => if s = "" then none else some s
  | none => none

/-- JS `x || d` on an optional string with a string default. -/
def jsOrStr (x : Option String) (d : String) : String :=
  match x with
  | some s => if s = "" then d else s
  | none => d

/-- JS `a || b` where both sides are optional strings. -/
def jsOrOpt (a b : Option String) : Option String :=
  match jsOptStr a with
  | some s => some s
  | none => b

/-- ASCII lower-casing of one character, as `String.prototype.toLowerCase`
acts on the ASCII range (all provider status vocabulary is ASCII). -/
def lowerCharAscii (c : Char) : Char :=
  if 'A' ≤ c ∧ c ≤ 'Z' then Char.ofNat (c.toNat + 32) else c

/-- ASCII `toLowerCase` on a string. -/
def strLowerAscii (s : String) : String := ⟨s.data.map lowerCharAscii⟩

/-- Bool-valued list-prefix test on characters. -/
def isPrefixL : List Char → List Char → Bool
  | [], _ => true
  | _ :: _, [] => false
  | p :: ps, c :: cs => p == c && isPrefixL ps cs

/-- `String.prototype.includes`: substring containment. -/
def containsSub (pat : List Char) : List Char → Bool
  | [] => isPrefixL pat []
  | c :: rest => isPrefixL pat (c :: rest) || containsSub pat rest

/-- `s.includes(pat)` on strings. -/
def strContains (s pat : String) : Bool := containsSub pat.data s.data

/-- `String.prototype.replace(pat, '')` with a non-empty plain-string
pattern: removes the first occurrence of `pat`, leaves the rest. -/
def replaceFirstL (pat : List Char) : List Char → List Char
  | [] => []
  | c :: rest =>
    if isPrefixL pat (c :: rest) then (c :: rest).drop pat.length
    else c :: replaceFirstL pat rest

/-- `sig.replace('sha256=', '')` and friends, on strings. -/
def stripFirstStr (pat s : String) : String := ⟨replaceFirstL pat.data s.data⟩

/-- JS `String.prototype.trim` on the ASCII whitespace actually occurring
in session names. -/
def isWsChar (c : Char) : Bool := c == ' ' || c == '\t' || c == '\n' || c == '\r'

/-- `name.trim()`. -/
def trimStr (s : String) : String :=
  ⟨((s.data.dropWhile isWsChar).reverse.dropWhile isWsChar).reverse⟩

/-- `s.substring(0, n)`. -/
def strTakeN (n : Nat) (s : String) : String := ⟨s.data.take n⟩

/-! ## Data model

Mirrors the Prisma `whatsAppSession` row and the `WhatsAppSessionData`
interface of `whatsappSessionService.ts`. -/

/-- The four-value internal status enum
(`'WORKING' | 'SCAN_QR_CODE' | 'STOPPED' | 'FAILED'`). -/
inductive Status where
  | WORKING
  | SCAN_QR_CODE
  | STOPPED
  | FAILED
  deriving DecidableEq, Repr

/-- The three gateway providers. -/
inductive Provider where
  | WAHA
  | EVOLUTION
  | QUEPASA
  deriving DecidableEq, Repr

/-- The `me` block (`{ id, pushName, lid?, jid? }`). -/
structure Me where
  id : String
  pushName : String
  lid : Option String := none
  jid : Option String := none
  deriving DecidableEq, Repr

/-- One persisted `whatsAppSession` row (the columns the engine touches). -/
structure Session where
  name : String
  displayName : Option String := none
  status : Status
  provider : Provider
  config : Option String := none
  meId : Option String := none
  mePushName : Option String := none
  meLid : Option String := none
  meJid : Option String := none
  qr : Option String := none
  qrExpiresAt : Option Nat := none
  assignedWorker : Option String := none
  tenantId : Option String := none
  quepasaToken : Option String := none
  interactiveCampaignEnabled : Bool := false
  webhookSecret : Option String := none
  deriving DecidableEq, Repr

/-- The `WhatsAppSessionData` argument of `createOrUpdateSession`;
`none` models a field left `undefined` by the caller. -/
structure SessionData where
  name : String
  displayName : Option String := none
  status : Status
  provider : Provider
  config : Option String := none
  me : Option Me := none
  qr : Option String := none
  qrExpiresAt : Option Nat := none
  assignedWorker : Option String := none
  tenantId : Option String := none
  quepasaToken : Option String := none
  interactiveCampaignEnabled : Option Bool := none
  webhookSecret : Option String := none
  deriving DecidableEq, Repr

/-- The session registry: the `whatsAppSession` table, `name` unique. -/
abbrev Registry := List Session

/-- `prisma.whatsAppSession.findFirst({ where: { name } })` /
`findUnique({ where: { name } })`. -/
def lookupSession (reg : Registry) (name : String) : Option Session :=
  reg.find? (fun s => s.name = name)

/-- The row filter of `findFirst({ where: { name, tenantId } })`. -/
def scopedPred (name : String) (scope : Option String) (s : Session) : Bool :=
  s.name = name && match scope with
                   | none => true
                   | some t => s.tenantId = some t

/-- `findFirst({ where: { name, tenantId } })` with the optional tenant
filter used by `WhatsAppSessionService.getSession(name, tenantId?)`. -/
def lookupScoped (reg : Registry) (name : String) (scope : Option String) :
    Option Session :=
  reg.find? (scopedPred name scope)

/-- `WhatsAppSessionService.getAllSessions(tenantId?)`: the rows of the
tenant (or all rows when unscoped). -/
def getAllSessions (reg : Registry) (scope : Option String) : List Session :=
  reg.filter (fun s => match scope with
                       | none => true
                       | some t => s.tenantId = some t)

/-! ## `WhatsAppSessionService.createOrUpdateSession`

`baseData` (lines 90–105 of the service) is applied on *both* the update
and the create branch; `interactiveCampaignEnabled` and `webhookSecret`
are the only two fields given merge behaviour (update only when
explicitly passed, lines 113–119), while on create they default to
`false` / `null` (lines 122–128). -/

/-- The update branch of the upsert: replace every `baseData` column with
the supplied value (absent string fields become `null`), and touch the two
webhook fields only when they were explicitly passed. -/
def applyUpdate (s : Session) (d : SessionData) : Session :=
  { name := d.name
    displayName := some (jsOrStr d.displayName d.name)
    status := d.status
    provider := d.provider
    config := d.config
    meId := jsOptStr (d.me.map (·.id))
    mePushName := jsOptStr (d.me.map (·.pushName))
    meLid := jsOptStr (d.me.bind (·.lid))
    meJid := jsOptStr (d.me.bind (·.jid))
    qr := jsOptStr d.qr
    qrExpiresAt := d.qrExpiresAt
    assignedWorker := jsOptStr d.assignedWorker
    tenantId := jsOptStr d.tenantId
    quepasaToken := jsOptStr d.quepasaToken
    interactiveCampaignEnabled :=
      d.interactiveCampaignEnabled.getD s.interactiveCampaignEnabled
    webhookSecret :=
      match d.webhookSecret with
      | some w => some w
      | none => s.webhookSecret }

/-- The create branch of the upsert: `baseData` plus the defaults
`interactiveCampaignEnabled || false` and `webhookSecret || null`. -/
def createOf (d : SessionData) : Session :=
  { name := d.name
    displayName := some (jsOrStr d.displayName d.name)
    status := d.status
    provider := d.provider
    config := d.config
    meId := jsOptStr (d.me.map (·.id))
    mePushName := jsOptStr (d.me.map (·.pushName))
    meLid := jsOptStr (d.me.bind (·.lid))
    meJid := jsOptStr (d.me.bind (·.jid))
    qr := jsOptStr d.qr
    qrExpiresAt := d.qrExpiresAt
    assignedWorker := jsOptStr d.assignedWorker
    tenantId := jsOptStr d.tenantId
    quepasaToken := jsOptStr d.quepasaToken
    interactiveCampaignEnabled := d.interactiveCampaignEnabled.getD false
    webhookSecret := jsOptStr d.webhookSecret }

/-- `prisma.whatsAppSession.upsert({ where: { name }, update, create })`. -/
def createOrUpdateSession (reg : Registry) (d : SessionData) : Registry :=
  if reg.any (fun s => s.name = d.name) then
    reg.map (fun s => if s.name = d.name then applyUpdate s d else s)
  else
    reg ++ [createOf d]

/-- Direct `prisma.whatsAppSession.create` (used by `POST /sessions` to
obtain the row id before calling the provider). -/
def prismaCreate (reg : Registry) (s : Session) : Registry := reg ++ [s]

/-! ## Provider status mappings -/

/-- The Evolution `stateMap` literal of the `GET /sessions` route
(`{'open': 'WORKING', 'connecting': 'SCAN_QR_CODE', 'close': 'STOPPED',
'closed': 'STOPPED'}`). -/
def evolutionStateMapPairs : List (String × String) :=
  [("open", "WORKING"), ("connecting", "SCAN_QR_CODE"),
   ("close", "STOPPED"), ("closed", "STOPPED")]

/-- `stateMap[rawState?.toLowerCase()] || 'STOPPED'`: the Evolution raw
connection state mapped to an internal status string, with the dictionary
miss falling back to `'STOPPED'`. -/
def evolutionMapState (rawState : String) : String :=
  ((evolutionStateMapPairs.find?
      (fun p => p.1 = strLowerAscii rawState)).map (·.2)).getD "STOPPED"

/-- The Quepasa `/health` status mapping of the `GET /sessions` sync loop
(lines 586–604): keyword search on the lower-cased status text, with the
final `else` mapping everything unrecognised to `FAILED`. -/
def quepasaMapHealth (success : Bool) (statusRaw : String) : Status :=
  let s := strLowerAscii statusRaw
  if success && strContains s "ready" then .WORKING
  else if strContains s "starting" || strContains s "qrcode" then .SCAN_QR_CODE
  else if strContains s "disconnected" || strContains s "stopped" then .STOPPED
  else .FAILED

/-! ## HTTP-pipeline plumbing -/

/-- Result of one remote (adapter) call, supplied by the environment:
`ok` carries the parsed payload, `fail` a thrown error message. -/
inductive RemoteResult (α : Type) where
  | ok (a : α)
  | fail (msg : String)
  deriving DecidableEq, Repr

/-- The remote calls an endpoint can perform, recorded in order so that
"no remote call happened" is an assertion about a list. -/
inductive RemoteCall where
  | evolutionCreateInstance (name : String)
  | evolutionFetchQr (name : String)
  | wahaCreateSession (name : String)
  | wahaFetchSession (name : String)
  | wahaFetchQrImage (name : String)
  | quepasaScan (name : String)
  deriving DecidableEq, Repr

/-- The slice of an HTTP response the claims talk about. -/
structure ApiResp where
  status : Nat := 200
  errorMsg : Option String := none
  upgradeRequired : Bool := false
  qr : Option String := none
  qrExpiresAt : Option Nat := none
  sessionStatus : Option Status := none
  deriving DecidableEq, Repr

/-- Result of running an endpoint: the response, the registry after all
writes, and the remote calls made. -/
structure Outcome where
  resp : ApiResp
  registry : Registry
  calls : List RemoteCall
  deriving DecidableEq, Repr

/-! ## Quota middleware (`quotaMiddleware.ts` lines 10–115) -/

/-- `check.resource` of the quota middleware. -/
inductive Resource where
  | users
  | contacts
  | campaigns
  | connections
  deriving DecidableEq, Repr

/-- The `tenant._count` selection of the middleware's Prisma query. -/
structure TenantCounts where
  users : Nat := 0
  contacts : Nat := 0
  campaigns : Nat := 0
  whatsappSessions : Nat := 0
  deriving DecidableEq, Repr

/-- The `tenantQuota` row joined with the counts. -/
structure QuotaRec where
  maxUsers : Nat := 0
  maxContacts : Nat := 0
  maxCampaigns : Nat := 0
  maxConnections : Nat := 0
  counts : TenantCounts := {}
  deriving DecidableEq, Repr

/-- `(currentCount, maxAllowed)` switch of the middleware. -/
def quotaPair (r : Resource) (q : QuotaRec) : Nat × Nat :=
  match r with
  | .users => (q.counts.users, q.maxUsers)
  | .contacts => (q.counts.contacts, q.maxContacts)
  | .campaigns => (q.counts.campaigns, q.maxCampaigns)
  | .connections => (q.counts.whatsappSessions, q.maxConnections)

/-- `quotaMiddleware({resource, action})`: `none` is `next()` (request
passes), `some resp` is the denial it writes. `quotaLookup` is the result
of the `tenantQuota.findUnique` query for the caller's tenant. -/
def quotaMiddleware (resource : Resource) (action : String) (role : String)
    (tenantId : Option String) (quotaLookup : Option QuotaRec) :
    Option ApiResp :=
  if role = "SUPERADMIN" then none
  else match tenantId with
  | none => some { status := 403,
                   errorMsg := some "Acesso negado. Tenant não identificado." }
  | some _ =>
    match quotaLookup with
    | none => some { status := 403,
                     errorMsg := some "Configuração de quotas não encontrada para este tenant." }
    | some q =>
      let p := quotaPair resource q
      if action = "create" ∧ p.2 ≤ p.1 then
        some { status := 403,
               errorMsg := some "Limite de recursos atingido",
               upgradeRequired := true }
      else none

/-! ## `POST /sessions` (`quotaMiddleware.ts` router, lines 861–1033)

The route is mounted as
`router.post('/sessions', authMiddleware, checkConnectionQuota, handler)`,
so the connection-quota gate runs strictly before the handler. -/

/-- The request as the handler sees it after `authMiddleware`. -/
structure CreateReq where
  role : String
  authTenant : Option String := none
  bodyName : Option String := none
  bodyProvider : Option String := none
  bodyTenantId : Option String := none
  interactiveCampaignEnabled : Bool := false
  deriving DecidableEq, Repr

/-- Environment of the create route: registry state, the quota row fetched
for `req.tenantId`, the random secrets `crypto.randomBytes` would produce,
and the provider responses. -/
structure CreateEnv where
  registry : Registry
  quotaLookup : Option QuotaRec := none
  now : Nat := 0
  webhookSecretGen : String := "whsec"
  quepasaTokenGen : String := "qptok"
  /-- `evolutionApiService.createInstance`; `ok` carries the optional
  `qrcode.base64` of the creation response. -/
  evolutionCreateResult : RemoteResult (Option String) := .fail "down"
  /-- `wahaRequest('/api/sessions', POST)` inside
  `WahaSyncService.createSession`. -/
  wahaCreateResult : RemoteResult Unit := .fail "down"
  /-- the `GET /api/sessions/name` fallback of the 422 branch; `ok` carries
  the remote session's optional status. -/
  wahaExistingFetch : RemoteResult (Option Status) := .fail "down"
  deriving DecidableEq, Repr

/-- `result.qrcode.base64` wrapping of the Evolution create branch:
prepend the data-URI header unless already present. -/
def dataUriWrap (b64 : String) : String :=
  if isPrefixL "data:image/".data b64.data then b64
  else "data:image/png;base64," ++ b64

/-- The marker standing for `JSON.stringify(sessionData.config)` of the
WAHA create path (a constant object literal in the source). -/
def wahaCreateConfig : String := "waha-create-config"

/-- `WahaSyncService.createSession(name, webhookUrl?)` (settingsService.ts
lines 279–334): POST the session to WAHA, upsert `STOPPED` on success; on
a 422 error re-fetch the existing remote session and upsert its status. -/
def wahaCreateSessionSvc (env : CreateEnv) (reg : Registry) (name : String) :
    Registry × RemoteResult Unit × List RemoteCall :=
  match env.wahaCreateResult with
  | .ok _ =>
    (createOrUpdateSession reg
      { name := name, status := .STOPPED, provider := .WAHA,
        config := some wahaCreateConfig },
     .ok (), [.wahaCreateSession name])
  | .fail e =>
    if strContains e "422" then
      match env.wahaExistingFetch with
      | .ok st =>
        (createOrUpdateSession reg
          { name := name, status := st.getD .STOPPED, provider := .WAHA,
            config := some wahaCreateConfig },
         .ok (), [.wahaCreateSession name, .wahaFetchSession name])
      | .fail _ =>
        (reg, .fail "Sessão já existe mas não foi possível obter detalhes",
         [.wahaCreateSession name, .wahaFetchSession name])
    else (reg, .fail e, [.wahaCreateSession name])

/-- The `POST /sessions` handler body (after the quota gate). -/
def createSessionHandler (req : CreateReq) (env : CreateEnv) : Outcome :=
  match jsOptStr req.bodyName with
  | none =>
    ⟨{ status := 400, errorMsg := some "Nome da sessão é obrigatório" },
     env.registry, []⟩
  | some name0 =>
    let provider := req.bodyProvider.getD "WAHA"
    if ¬ (provider = "WAHA" ∨ provider = "EVOLUTION" ∨ provider = "QUEPASA") then
      ⟨{ status := 400, errorMsg := some "Provedor deve ser WAHA, EVOLUTION ou QUEPASA" },
       env.registry, []⟩
    else
      let tenantRaw := if req.role = "SUPERADMIN"
                       then jsOrOpt req.bodyTenantId req.authTenant
                       else req.authTenant
      match jsOptStr tenantRaw with
      | none =>
        ⟨{ status := 400, errorMsg := some "TenantId é obrigatório" },
         env.registry, []⟩
      | some tenant =>
        let displayName := trimStr name0
        let realName := displayName ++ "_" ++ strTakeN 8 tenant
        if (lookupSession env.registry realName).isSome then
          ⟨{ status := 409, errorMsg := some "Já existe uma conexão com este nome" },
           env.registry, []⟩
        else
          let webhookSecret :=
            if req.interactiveCampaignEnabled
            then some env.webhookSecretGen else none
          if provider = "EVOLUTION" then
            let reg1 := prismaCreate env.registry
              { name := realName, displayName := some displayName,
                status := .SCAN_QR_CODE, provider := .EVOLUTION,
                tenantId := some tenant,
                interactiveCampaignEnabled := req.interactiveCampaignEnabled,
                webhookSecret := webhookSecret }
            match env.evolutionCreateResult with
            | .fail e =>
              ⟨{ status := 500, errorMsg := some e }, reg1,
               [.evolutionCreateInstance realName]⟩
            | .ok qrOpt =>
              let qrCode := qrOpt.map dataUriWrap
              let qrExp := qrOpt.map (fun _ => env.now + 300000)
              let reg2 := createOrUpdateSession reg1
                { name := realName, displayName := some displayName,
                  status := .SCAN_QR_CODE, provider := .EVOLUTION,
                  tenantId := some tenant, qr := qrCode, qrExpiresAt := qrExp,
                  interactiveCampaignEnabled := some req.interactiveCampaignEnabled,
                  webhookSecret := webhookSecret }
              ⟨{ status := 200 }, reg2, [.evolutionCreateInstance realName]⟩
          else if provider = "QUEPASA" then
            let reg1 := prismaCreate env.registry
              { name := realName, displayName := some displayName,
                status := .STOPPED, provider := .QUEPASA,
                tenantId := some tenant,
                quepasaToken := some env.quepasaTokenGen,
                interactiveCampaignEnabled := req.interactiveCampaignEnabled,
                webhookSecret := webhookSecret }
            ⟨{ status := 200 }, reg1, []⟩
          else
            let reg1 := prismaCreate env.registry
              { name := realName, displayName := some displayName,
                status := .SCAN_QR_CODE, provider := .WAHA,
                tenantId := some tenant,
                interactiveCampaignEnabled := req.interactiveCampaignEnabled,
                webhookSecret := webhookSecret }
            match wahaCreateSessionSvc env reg1 realName with
            | (reg2, .fail e, calls) =>
              ⟨{ status := 500, errorMsg := some e }, reg2, calls⟩
            | (reg2, .ok _, calls) =>
              let reg3 := createOrUpdateSession reg2
                { name := realName, displayName := some displayName,
                  status := .SCAN_QR_CODE, provider := .WAHA,
                  tenantId := some tenant,
                  interactiveCampaignEnabled := some req.interactiveCampaignEnabled,
                  webhookSecret := webhookSecret }
              ⟨{ status := 200 }, reg3, calls⟩

/-- The whole `POST /sessions` pipeline: `checkConnectionQuota` first, the
handler only if the gate calls `next()`. -/
def postSessions (req : CreateReq) (env : CreateEnv) : Outcome :=
  match quotaMiddleware .connections "create" req.role req.authTenant
        env.quotaLookup with
  | some deny => ⟨deny, env.registry, []⟩
  | none => createSessionHandler req env

/-! ## `GET /sessions/:sessionName/auth/qr` (router lines 1351–1626)

The endpoint first returns a saved, still-valid QR from the registry
(lines 1360–1375); otherwise it routes by provider and fetches a fresh
pairing artifact, persisting it with a five-minute TTL. -/

/-- The request for the QR endpoint. -/
structure QrReq where
  role : String
  authTenant : Option String := none
  sessionName : String
  deriving DecidableEq, Repr

/-- Environment of the QR endpoint: registry, the wall clock, the Quepasa
global credentials, the token generator, and the provider responses
(keyed implicitly by the requested session). -/
structure QrEnv where
  registry : Registry
  now : Nat := 0
  quepasaUrl : String := ""
  quepasaLogin : String := ""
  genToken : String := "qptok"
  /-- `evolutionApiService.getQRCode` (already a data-URI). -/
  evolutionQrResult : RemoteResult String := .fail "down"
  /-- the Quepasa `GET /scan` image, as its base64 payload. -/
  quepasaScanResult : RemoteResult String := .fail "down"
  /-- `wahaRequest('/api/sessions/name')`, reduced to the remote status. -/
  wahaStatusResult : RemoteResult Status := .fail "down"
  /-- the WAHA `auth/qr?format=image` image, as its base64 payload. -/
  wahaQrImageResult : RemoteResult String := .fail "down"
  deriving DecidableEq, Repr

/-- The WAHA QR-image fetch + persist + respond tail (lines 1528–1590),
entered with the calls made so far. -/
def wahaQrFetchTail (env : QrEnv) (s : Session) (callsSoFar : List RemoteCall) :
    Outcome :=
  match env.wahaQrImageResult with
  | .fail _ =>
    ⟨{ status := 500, errorMsg := some "Erro ao obter QR Code da WAHA API" },
     env.registry, callsSoFar ++ [.wahaFetchQrImage s.name]⟩
  | .ok img =>
    let qrB := "data:image/png;base64," ++ img
    let exp := env.now + 300000
    let reg2 := createOrUpdateSession env.registry
      { name := s.name, status := .SCAN_QR_CODE, provider := .WAHA,
        qr := some qrB, qrExpiresAt := some exp, tenantId := s.tenantId }
    ⟨{ status := 200, qr := some qrB, qrExpiresAt := some exp,
       sessionStatus := some .SCAN_QR_CODE }, reg2,
     callsSoFar ++ [.wahaFetchQrImage s.name]⟩

/-- The provider-routed part of the QR endpoint, for the session found in
the registry (lines 1392–1620). -/
def qrForSession (env : QrEnv) (s : Session) : Outcome :=
  match s.provider with
  | .EVOLUTION =>
    match env.evolutionQrResult with
    | .fail _ =>
      ⟨{ status := 500, errorMsg := some "Erro ao obter QR Code da Evolution API" },
       env.registry, [.evolutionFetchQr s.name]⟩
    | .ok qrData =>
      let exp := env.now + 300000
      let reg2 := createOrUpdateSession env.registry
        { name := s.name, status := .SCAN_QR_CODE, provider := .EVOLUTION,
          qr := some qrData, qrExpiresAt := some exp, tenantId := s.tenantId }
      ⟨{ status := 200, qr := some qrData, qrExpiresAt := some exp,
         sessionStatus := some .SCAN_QR_CODE }, reg2, [.evolutionFetchQr s.name]⟩
  | .QUEPASA =>
    if env.quepasaUrl = "" ∨ env.quepasaLogin = "" then
      ⟨{ status := 500, errorMsg := some "Erro ao obter QR Code da Quepasa API" },
       env.registry, []⟩
    else
      let tokReg : String × Registry :=
        match jsOptStr s.quepasaToken with
        | some tk => (tk, env.registry)
        | none =>
          (env.genToken,
           createOrUpdateSession env.registry
             { name := s.name, status := s.status, provider := .QUEPASA,
               tenantId := s.tenantId, quepasaToken := some env.genToken })
      match env.quepasaScanResult with
      | .fail _ =>
        ⟨{ status := 500, errorMsg := some "Erro ao obter QR Code da Quepasa API" },
         tokReg.2, [.quepasaScan s.name]⟩
      | .ok payload =>
        let qrB := "data:image/png;base64," ++ payload
        let exp := env.now + 300000
        let reg2 := createOrUpdateSession tokReg.2
          { name := s.name, status := .SCAN_QR_CODE, provider := .QUEPASA,
            quepasaToken := some tokReg.1, qr := some qrB,
            qrExpiresAt := some exp, tenantId := s.tenantId }
        ⟨{ status := 200, qr := some qrB, qrExpiresAt := some exp,
           sessionStatus := some .SCAN_QR_CODE }, reg2, [.quepasaScan s.name]⟩
  | .WAHA =>
    match env.wahaStatusResult with
    | .fail _ =>
      if s.status = .SCAN_QR_CODE then
        wahaQrFetchTail env s [.wahaFetchSession s.name]
      else
        ⟨{ status := 400,
           errorMsg := some "Não foi possível acessar a API WAHA para verificar o status da sessão" },
         env.registry, [.wahaFetchSession s.name]⟩
    | .ok remoteSt =>
      let eff := if s.status = .SCAN_QR_CODE then .SCAN_QR_CODE else remoteSt
      if eff = .SCAN_QR_CODE then
        wahaQrFetchTail env s [.wahaFetchSession s.name]
      else if eff = .WORKING then
        ⟨{ status := 400, errorMsg := some "Sessão já está conectada" },
         env.registry, [.wahaFetchSession s.name]⟩
      else
        match jsOptStr s.qr, s.qrExpiresAt with
        | some q, some e =>
          if env.now < e then
            ⟨{ status := 200, qr := some q, qrExpiresAt := some e,
               sessionStatus := some eff }, env.registry,
             [.wahaFetchSession s.name]⟩
          else
            ⟨{ status := 400, errorMsg := some "Sessão não está disponível para QR code" },
             env.registry, [.wahaFetchSession s.name]⟩
        | _, _ =>
          ⟨{ status := 400, errorMsg := some "Sessão não está disponível para QR code" },
           env.registry, [.wahaFetchSession s.name]⟩

/-- The full QR endpoint: tenant scoping, saved-QR fast path (lines
1360–1375, guard `savedSession.qr && savedSession.qrExpiresAt &&
savedSession.qrExpiresAt > new Date()`), then the provider routing. -/
def getQrPipeline (req : QrReq) (env : QrEnv) : Outcome :=
  match lookupScoped env.registry req.sessionName
      (if req.role = "SUPERADMIN" then none else req.authTenant) with
  | none =>
    ⟨{ status := 404, errorMsg := some "Sessão não encontrada" },
     env.registry, []⟩
  | some s =>
    match jsOptStr s.qr, s.qrExpiresAt with
    | some q, some e =>
      if env.now < e then
        ⟨{ status := 200, qr := some q, qrExpiresAt := some e,
           sessionStatus := some s.status }, env.registry, []⟩
      else qrForSession env s
    | _, _ => qrForSession env s

/-- Drop the pairing artifact of a row: the "artifact absent" state the
read-time-expiry claims compare against. -/
def eraseQrFields (s : Session) : Session :=
  { s with qr := none, qrExpiresAt := none }

/-- Erase the pairing artifact of one registry entry: the state the claims
compare an expired-artifact read against. -/
def eraseQrInReg (reg : Registry) (name : String) : Registry :=
  reg.map (fun x => if x.name = name then eraseQrFields x else x)

/-! ## `WahaSyncService.syncSession` and the `GET /sessions` WAHA batch

`syncSession` (settingsService.ts lines 240–274) fetches the remote
session, merges it over the existing row (preserving `displayName`, `qr`,
`qrExpiresAt`, `tenantId`), and on any remote failure returns the
persisted row unchanged.  The route's batch loop (router lines 437–453)
wraps each call in its own try/catch. -/

/-- The remote WAHA session payload (`GET /api/sessions/name`). -/
structure WahaRemoteSession where
  name : String
  status : Option Status := none
  config : Option String := none
  me : Option Me := none
  assignedWorker : Option String := none
  deriving DecidableEq, Repr

/-- The merge payload `syncSession` hands to `createOrUpdateSession`: the
remote row's fields, with `displayName`, `qr`, `qrExpiresAt` and
`tenantId` carried over from the existing row (and the registry value the
caller receives models the re-thrown "Sessão não encontrada"). -/
def wahaMergeData (existing : Option Session) (w : WahaRemoteSession) :
    SessionData :=
  { name := w.name
    displayName := some (jsOrStr (existing.bind (·.displayName)) w.name)
    status := w.status.getD .STOPPED
    provider := .WAHA
    config := w.config
    me := w.me
    assignedWorker := w.assignedWorker
    qr := jsOptStr (existing.bind (·.qr))
    qrExpiresAt := existing.bind (·.qrExpiresAt)
    tenantId := jsOptStr (existing.bind (·.tenantId)) }

/-- The tail of `syncSession`: re-read the row and hand it back, or
surface the re-thrown "Sessão não encontrada" (shared verbatim by the
success path and the catch fallback). -/
def wahaSyncResult (reg2 : Registry) (sessionName : String) :
    Registry × RemoteResult Session :=
  match lookupSession reg2 sessionName with
  | some s => (reg2, .ok s)
  | none => (reg2, .fail "Sessão não encontrada")

/-- `WahaSyncService.syncSession(sessionName)` proper: on remote success,
merge-upsert and re-read; on remote failure, return the persisted row
unchanged (or re-throw if it does not exist). -/
def wahaSyncSession (adapter : String → RemoteResult WahaRemoteSession)
    (reg : Registry) (sessionName : String) :
    Registry × RemoteResult Session :=
  match adapter sessionName with
  | .fail _ => wahaSyncResult reg sessionName
  | .ok w =>
    wahaSyncResult
      (createOrUpdateSession reg
        (wahaMergeData (lookupSession reg sessionName) w))
      sessionName

/-- The per-session body of the route's WAHA sync loop: `try {
syncSession } catch { log }` — the result and any error are discarded,
only the registry writes remain. -/
def wahaBatchStep (adapter : String → RemoteResult WahaRemoteSession)
    (reg : Registry) (sessionName : String) : Registry :=
  (wahaSyncSession adapter reg sessionName).1

/-- The WAHA half of `GET /sessions`: sync every listed session in order,
isolating failures per session. -/
def wahaBatchSync (adapter : String → RemoteResult WahaRemoteSession)
    (names : List String) (reg : Registry) : Registry :=
  names.foldl (wahaBatchStep adapter) reg

/-! ## The Quepasa status-sync registry write (router lines 624–631)

Inside the `GET /sessions` Quepasa loop, once `/health` answered, the
route persists the mapped status while explicitly re-supplying the
session's own token (`quepasaToken: sessionToken // IMPORTANTE: preservar
o token`). `tok` is the loop's `sessionToken`, read from the session row
and already checked truthy (the loop `continue`s otherwise). -/
def quepasaHealthSyncWrite (reg : Registry) (s : Session) (tok : String)
    (mapped : Status) (me : Option Me) : Registry :=
  createOrUpdateSession reg
    { name := s.name, status := mapped, provider := .QUEPASA,
      tenantId := jsOptStr s.tenantId, quepasaToken := some tok, me := me }

/-! ## SHA-256, HMAC-SHA256 and `connectionService.validateHmacSignature`

`validateHmacSignature` (whatsappSessionService.ts lines 435–451) computes
`crypto.createHmac('sha256', secret).update(body).digest('hex')`, strips
the first `'sha256='` occurrence from the received header, hex-decodes
both with Node's lenient `Buffer.from(str, 'hex')` semantics, and compares
with `crypto.timingSafeEqual` inside a try/catch (length mismatch throws,
which the catch turns into `false`).

SHA-256 is implemented from FIPS 180-4 over byte lists (`Nat` < 256),
with 32-bit words as `Nat` reduced mod `2^32`. -/

/-- Addition mod 2³². -/
def add32 (a b : Nat) : Nat := (a + b) % 4294967296

/-- Right rotation of a 32-bit word by `n`. -/
def rotr32 (n w : Nat) : Nat :=
  Nat.lor (w >>> n) ((w % 2 ^ n) <<< (32 - n))

/-- Bitwise complement within 32 bits. -/
def not32 (w : Nat) : Nat := Nat.xor w 4294967295

/-- FIPS `Ch(e,f,g)`. -/
def shaCh (e f g : Nat) : Nat := Nat.xor (Nat.land e f) (Nat.land (not32 e) g)

/-- FIPS `Maj(a,b,c)`. -/
def shaMaj (a b c : Nat) : Nat :=
  Nat.xor (Nat.land a b) (Nat.xor (Nat.land a c) (Nat.land b c))

/-- FIPS `Σ₀`. -/
def bigSigma0 (a : Nat) : Nat :=
  Nat.xor (rotr32 2 a) (Nat.xor (rotr32 13 a) (rotr32 22 a))

/-- FIPS `Σ₁`. -/
def bigSigma1 (e : Nat) : Nat :=
  Nat.xor (rotr32 6 e) (Nat.xor (rotr32 11 e) (rotr32 25 e))

/-- FIPS `σ₀`. -/
def smallSigma0 (w : Nat) : Nat :=
  Nat.xor (rotr32 7 w) (Nat.xor (rotr32 18 w) (w >>> 3))

/-- FIPS `σ₁`. -/
def smallSigma1 (w : Nat) : Nat :=
  Nat.xor (rotr32 17 w) (Nat.xor (rotr32 19 w) (w >>> 10))

/-- The eight working variables of the compression function. -/
structure Hash8 where
  a : Nat
  b : Nat
  c : Nat
  d : Nat
  e : Nat
  f : Nat
  g : Nat
  h : Nat
  deriving DecidableEq, Repr

/-- SHA-256 initial hash value. -/
def shaH0 : Hash8 :=
  ⟨1779033703, 3144134277, 1013904242, 2773480762,
   1359893119, 2600822924, 528734635, 1541459225⟩

/-- SHA-256 round constants `K`. -/
def shaK : List Nat :=
  [1116352408, 1899447441, 3049323471, 3921009573, 961987163,
   1508970993, 2453635748, 2870763221, 3624381080, 310598401,
   607225278, 1426881987, 1925078388, 2162078206, 2614888103,
   3248222580, 3835390401, 4022224774, 264347078, 604807628,
   770255983, 1249150122, 1555081692, 1996064986, 2554220882,
   2821834349, 2952996808, 3210313671, 3336571891, 3584528711,
   113926993, 338241895, 666307205, 773529912, 1294757372,
   1396182291, 1695183700, 1986661051, 2177026350, 2456956037,
   2730485921, 2820302411, 3259730800, 3345764771, 3516065817,
   3600352804, 4094571909, 275423344, 430227734, 506948616,
   659060556, 883997877, 958139571, 1322822218, 1537002063,
   1747873779, 1955562222, 2024104815, 2227730452, 2361852424,
   2428436474, 2756734187, 3204031479, 3329325298]

/-- Big-endian byte serialisation of `n` on `k` bytes. -/
def toBytesBE : Nat → Nat → List Nat
  | 0, _ => []
  | k + 1, n => toBytesBE k (n / 256) ++ [n % 256]

/-- FIPS padding: `0x80`, zeros to 56 mod 64, then the 64-bit bit length. -/
def shaPad (msg : List Nat) : List Nat :=
  msg ++ 0x80 :: List.replicate ((119 - msg.length % 64) % 64) 0
      ++ toBytesBE 8 (8 * msg.length)

/-- Big-endian 32-bit words from bytes (length is a multiple of 4 after
padding). -/
def wordsOfBytes : List Nat → List Nat
  | b0 :: b1 :: b2 :: b3 :: rest =>
    (((b0 * 256 + b1) * 256 + b2) * 256 + b3) :: wordsOfBytes rest
  | _ => []

/-- Split a word list into 16-word blocks; `fuel` bounds the recursion
(any fuel at least the number of blocks gives the same result). -/
def chunks16 : Nat → List Nat → List (List Nat)
  | 0, _ => []
  | _ + 1, [] => []
  | fuel + 1, ws => ws.take 16 :: chunks16 fuel (ws.drop 16)

/-- Message-schedule extension; `acc` holds the schedule so far in
reverse (newest word first). -/
def extendSchedule : Nat → List Nat → List Nat
  | 0, acc => acc.reverse
  | k + 1, acc =>
    let w2 := acc.getD 1 0
    let w7 := acc.getD 6 0
    let w15 := acc.getD 14 0
    let w16 := acc.getD 15 0
    extendSchedule k
      (add32 (add32 (smallSigma1 w2) w7) (add32 (smallSigma0 w15) w16) :: acc)

/-- The 64-word message schedule of one block. -/
def messageSchedule (block : List Nat) : List Nat :=
  extendSchedule 48 block.reverse

/-- One compression round. -/
def shaRound (st : Hash8) (kw : Nat × Nat) : Hash8 :=
  let t1 := add32 st.h (add32 (bigSigma1 st.e)
              (add32 (shaCh st.e st.f st.g) (add32 kw.1 kw.2)))
  let t2 := add32 (bigSigma0 st.a) (shaMaj st.a st.b st.c)
  ⟨add32 t1 t2, st.a, st.b, st.c, add32 st.d t1, st.e, st.f, st.g⟩

/-- Compression of one 16-word block. -/
def shaCompress (st : Hash8) (block : List Nat) : Hash8 :=
  let w := messageSchedule block
  let r := (shaK.zip w).foldl shaRound st
  ⟨add32 st.a r.a, add32 st.b r.b, add32 st.c r.c, add32 st.d r.d,
   add32 st.e r.e, add32 st.f r.f, add32 st.g r.g, add32 st.h r.h⟩

/-- Big-endian serialisation of the final state, 32 bytes. -/
def digestBytes (st : Hash8) : List Nat :=
  toBytesBE 4 st.a ++ toBytesBE 4 st.b ++ toBytesBE 4 st.c ++
    toBytesBE 4 st.d ++ toBytesBE 4 st.e ++ toBytesBE 4 st.f ++
      toBytesBE 4 st.g ++ toBytesBE 4 st.h

/-- SHA-256 of a byte list, as 32 bytes. -/
def sha256 (msg : List Nat) : List Nat :=
  let padded := shaPad msg
  let ws := wordsOfBytes padded
  let blocks := chunks16 (ws.length + 1) ws
  digestBytes (blocks.foldl shaCompress shaH0)

/-- HMAC-SHA256 over byte lists (RFC 2104, block size 64). -/
def hmacSha256 (key msg : List Nat) : List Nat :=
  let k1 := if 64 < key.length then sha256 key else key
  let k0 := k1 ++ List.replicate (64 - k1.length) 0
  let ipad := k0.map (Nat.xor · 0x36)
  let opad := k0.map (Nat.xor · 0x5c)
  sha256 (opad ++ sha256 (ipad ++ msg))

/-- The sixteen lowercase hex digits. -/
def hexDigitChars : List Char := "0123456789abcdef".data

/-- Lowercase hex digit of a nibble. -/
def hexDigit (n : Nat) : Char := hexDigitChars.getD n '0'

/-- Lowercase hex encoding of bytes (`digest('hex')`). -/
def hexEncode : List Nat → List Char
  | [] => []
  | b :: rest => hexDigit (b / 16) :: hexDigit (b % 16) :: hexEncode rest

/-- `String.toUTF8` as a byte list (`createHmac`/`update` interpret JS
strings as UTF-8). -/
def strBytes (s : String) : List Nat := s.toUTF8.toList.map (·.toNat)

/-- `crypto.createHmac('sha256', secret).update(body).digest('hex')`. -/
def hmacSha256Hex (secret body : String) : String :=
  ⟨hexEncode (hmacSha256 (strBytes secret) (strBytes body))⟩

/-- Hex value of one character, as `Buffer.from(·, 'hex')` reads digits:
`0-9`, `a-f` and `A-F`. -/
def hexCharVal (c : Char) : Option Nat :=
  if 48 ≤ c.toNat ∧ c.toNat ≤ 57 then some (c.toNat - 48)
  else if 97 ≤ c.toNat ∧ c.toNat ≤ 102 then some (c.toNat - 87)
  else if 65 ≤ c.toNat ∧ c.toNat ≤ 70 then some (c.toNat - 55)
  else none

/-- Node's lenient hex decoding: consume two-digit pairs from the front,
stop at the first invalid pair, drop a trailing lone digit. -/
def hexDecodeLenient : List Char → List Nat
  | c1 :: c2 :: rest =>
    match hexCharVal c1, hexCharVal c2 with
    | some h, some l => (16 * h + l) :: hexDecodeLenient rest
    | _, _ => []
  | _ => []

/-- `connectionService.validateHmacSignature(signature, body, secret)`:
recompute the hex HMAC, strip `'sha256='`, decode both sides as Node does,
and compare; a length mismatch makes `timingSafeEqual` throw, which the
catch converts to `false`. -/
def validateHmacSignature (signature body secret : String) : Bool :=
  let expected := hmacSha256Hex secret body
  let received := stripFirstStr "sha256=" signature
  let eb := hexDecodeLenient expected.data
  let rb := hexDecodeLenient received.data
  if eb.length = rb.length then eb = rb else false

/-- Is a character a lowercase hex digit (`0-9a-f`)? -/
def isLowerHexChar (c : Char) : Bool :=
  (48 ≤ c.toNat ∧ c.toNat ≤ 57) ∨ (97 ≤ c.toNat ∧ c.toNat ≤ 102)

/-- Does the list start with a decodable hex pair? (`false` exactly when
Node's decoder stops here.) -/
def startsWithHexPair (l : List Char) : Bool :=
  match l with
  | c1 :: c2 :: _ => (hexCharVal c1).isSome && (hexCharVal c2).isSome
  | _ => false

/-- Spec-side acceptance predicate for the amended claim: after stripping
the first `'sha256='`, the first 64 characters of the signature denote the
same hex digits as the expected MAC (equality up to letter case) and no
further decodable hex pair follows. -/
def sigAcceptSpec (signature macHex : String) : Prop :=
  let s := (stripFirstStr "sha256=" signature).data
  (s.take macHex.length).map hexCharVal = macHex.data.map hexCharVal ∧
    startsWithHexPair (s.drop macHex.length) = false

/-! # Lemmas and claim theorems -/

/-- The update branch keeps the row keyed under the same name. -/
theorem applyUpdate_name (s : Session) (d : SessionData) :
    (applyUpdate s d).name = d.name := rfl

/-- `find?` over the upsert's map-replace, on the updated key. -/
theorem find?_map_upsert (reg : Registry) (d : SessionData) (s : Session)
    (h : reg.find? (fun x => x.name = d.name) = some s) :
    (reg.map (fun x => if x.name = d.name then applyUpdate x d else x)).find?
      (fun x => x.name = d.name) = some (applyUpdate s d) := by
  induction reg with
  | nil => simp at h
  | cons a l ih =>
    by_cases ha : a.name = d.name
    · rw [List.find?_cons_of_pos _ (by simpa using ha)] at h
      injection h with h
      subst h
      simp only [List.map_cons, if_pos ha]
      exact List.find?_cons_of_pos _ (by simp [applyUpdate_name])
    · rw [List.find?_cons_of_neg _ (by simpa using ha)] at h
      simp only [List.map_cons, if_neg ha]
      rw [List.find?_cons_of_neg _ (by simpa using ha)]
      exact ih h

/-- `find?` over the upsert's map-replace, on any other key. -/
theorem find?_map_upsert_other (reg : Registry) (d : SessionData)
    (x : String) (hx : x ≠ d.name) :
    (reg.map (fun s => if s.name = d.name then applyUpdate s d else s)).find?
      (fun s => s.name = x) = reg.find? (fun s => s.name = x) := by
  induction reg with
  | nil => rfl
  | cons a l ih =>
    by_cases ha : a.name = d.name
    · simp only [List.map_cons, if_pos ha]
      rw [List.find?_cons_of_neg _ (by simp [applyUpdate_name, hx.symm]),
          List.find?_cons_of_neg _ (by simp [ha, hx.symm])]
      exact ih
    · simp only [List.map_cons, if_neg ha]
      by_cases hax : a.name = x
      · rw [List.find?_cons_of_pos _ (by simpa using hax),
            List.find?_cons_of_pos _ (by simpa using hax)]
      · rw [List.find?_cons_of_neg _ (by simpa using hax),
            List.find?_cons_of_neg _ (by simpa using hax)]
        exact ih

/-- Looking up the written key after an upsert that found an existing row
yields exactly the update-branch merge of that row. -/
theorem lookupSession_upsert_self (reg : Registry) (d : SessionData)
    (s : Session) (h : lookupSession reg d.name = some s) :
    lookupSession (createOrUpdateSession reg d) d.name =
      some (applyUpdate s d) := by
  have hmem := List.mem_of_find?_eq_some h
  have hp := List.find?_some h
  have hany : reg.any (fun x => decide (x.name = d.name)) = true :=
    List.any_eq_true.mpr ⟨s, hmem, hp⟩
  unfold createOrUpdateSession lookupSession
  rw [if_pos hany]
  exact find?_map_upsert reg d s h

/-- Looking up the written key after an upsert that found no existing row
yields the create-branch row. -/
theorem lookupSession_upsert_new (reg : Registry) (d : SessionData)
    (h : lookupSession reg d.name = none) :
    lookupSession (createOrUpdateSession reg d) d.name = some (createOf d) := by
  have hall := List.find?_eq_none.mp h
  have hany : reg.any (fun x => decide (x.name = d.name)) = false :=
    List.any_eq_false.mpr hall
  unfold createOrUpdateSession lookupSession
  rw [if_neg (by simp [hany]), List.find?_append]
  unfold lookupSession at h
  rw [h]
  simp [createOf]

/-- An upsert leaves every other key untouched. -/
theorem lookupSession_upsert_other (reg : Registry) (d : SessionData)
    (x : String) (hx : x ≠ d.name) :
    lookupSession (createOrUpdateSession reg d) x = lookupSession reg x := by
  unfold createOrUpdateSession lookupSession
  by_cases hany : reg.any (fun s => decide (s.name = d.name)) = true
  · rw [if_pos hany]
    exact find?_map_upsert_other reg d x hx
  · rw [if_neg hany, List.find?_append]
    have hnil : [createOf d].find? (fun s => decide (s.name = x)) = none := by
      simp [createOf, hx.symm]
    rw [hnil]
    cases reg.find? (fun s => decide (s.name = x)) <;> rfl

/-! ## Claim C1 — `externalToken` preservation -/

/-- C1 (counterexample): a `createOrUpdateSession` call that omits
`quepasaToken` *does* null out an existing stored token — the update data
unconditionally carries `quepasaToken: data.quepasaToken || null`.  Here a
Quepasa session holding token `"tok123"` is rewritten by a token-less
reconciliation write and the stored token becomes `null`. -/
theorem c1_counterexample :
    (lookupSession
        [{ name := "acme_c52982e8", status := .STOPPED, provider := .QUEPASA,
           quepasaToken := some "tok123" : Session }]
        "acme_c52982e8").map (·.quepasaToken) = some (some "tok123") ∧
    (lookupSession
        (createOrUpdateSession
          [{ name := "acme_c52982e8", status := .STOPPED, provider := .QUEPASA,
             quepasaToken := some "tok123" : Session }]
          { name := "acme_c52982e8", status := .WORKING,
            provider := .QUEPASA })
        "acme_c52982e8").map (·.quepasaToken) = some none := by
  constructor <;> rfl

/-- C1 (amended): `createOrUpdateSession`'s update branch replaces
`quepasaToken` wholesale (omitting it nulls a stored token), so the token
survives a reconciliation write only when the caller explicitly resupplies
it — which the Quepasa `/health` sync write does: it passes the session's
own stored token back, leaving the stored token unchanged. -/
theorem c1_token_preserved_when_resupplied (reg : Registry) (s : Session)
    (tok : String) (mapped : Status) (me : Option Me)
    (hfind : lookupSession reg s.name = some s)
    (htok : s.quepasaToken = some tok) (hne : tok ≠ "") :
    (lookupSession (quepasaHealthSyncWrite reg s tok mapped me) s.name).map
        (·.quepasaToken) = some s.quepasaToken := by
  unfold quepasaHealthSyncWrite
  rw [lookupSession_upsert_self reg _ s hfind]
  simp [applyUpdate, jsOptStr, hne, htok]

/-- Witness for the amended C1 theorem at a concrete registry. -/
theorem c1_witness :
    (lookupSession
        (quepasaHealthSyncWrite
          [{ name := "q1", status := .SCAN_QR_CODE, provider := .QUEPASA,
             tenantId := some "t1", quepasaToken := some "tok123" : Session }]
          { name := "q1", status := .SCAN_QR_CODE, provider := .QUEPASA,
            tenantId := some "t1", quepasaToken := some "tok123" }
          "tok123" .WORKING none)
        "q1").map (·.quepasaToken) = some (some "tok123") :=
  c1_token_preserved_when_resupplied _ _ _ _ _ (by rfl) (by rfl)
    (by decide)

/-! ## Claim C10 — merge semantics of the two webhook fields -/

/-- C10: updating an existing session while leaving
`interactiveCampaignEnabled` and `webhookSecret` undefined keeps both
stored values, while first creation defaults them to `false` / `null`. -/
theorem c10_webhook_fields_merge (reg : Registry) (d : SessionData)
    (hint : d.interactiveCampaignEnabled = none)
    (hweb : d.webhookSecret = none) :
    (∀ s, lookupSession reg d.name = some s →
      (lookupSession (createOrUpdateSession reg d) d.name).map
          (fun r => (r.interactiveCampaignEnabled, r.webhookSecret)) =
        some (s.interactiveCampaignEnabled, s.webhookSecret)) ∧
    (lookupSession reg d.name = none →
      (lookupSession (createOrUpdateSession reg d) d.name).map
          (fun r => (r.interactiveCampaignEnabled, r.webhookSecret)) =
        some (false, none)) := by
  constructor
  · intro s hs
    rw [lookupSession_upsert_self reg d s hs]
    simp [applyUpdate, hint, hweb]
  · intro hnone
    rw [lookupSession_upsert_new reg d hnone]
    simp [createOf, hint, hweb, jsOptStr]

/-- Witness for C10 at a concrete registry: the update leg keeps
`(true, some "sec")`, the create leg yields `(false, none)`. -/
theorem c10_witness :
    (lookupSession
        (createOrUpdateSession
          [{ name := "w1", status := .WORKING, provider := .WAHA,
             interactiveCampaignEnabled := true,
             webhookSecret := some "sec" : Session }]
          { name := "w1", status := .STOPPED, provider := .WAHA })
        "w1").map
        (fun r => (r.interactiveCampaignEnabled, r.webhookSecret)) =
      some (true, some "sec") ∧
    (lookupSession
        (createOrUpdateSession []
          { name := "w2", status := .STOPPED, provider := .WAHA })
        "w2").map
        (fun r => (r.interactiveCampaignEnabled, r.webhookSecret)) =
      some (false, none) :=
  ⟨(c10_webhook_fields_merge _ _ (by rfl) (by rfl)).1 _ (by rfl),
   (c10_webhook_fields_merge _ _ (by rfl) (by rfl)).2 (by rfl)⟩

/-! ## Claim C2 — unmapped provider statuses -/

/-- C2 (counterexample): the claim says every provider maps unknown raw
statuses to `FAILED`, but the Evolution `stateMap` lookup falls back to
`'STOPPED'`: the unmapped state `"banana"` maps to `'STOPPED'`. -/
theorem c2_counterexample :
    evolutionStateMapPairs.find? (fun p => p.1 = strLowerAscii "banana")
      = none ∧
    evolutionMapState "banana" = "STOPPED" ∧
    evolutionMapState "banana" ≠ "FAILED" := by
  refine ⟨rfl, rfl, by decide⟩

/-- C2 (amended): the Quepasa `/health` mapping does send every status
outside its keyword vocabulary to `FAILED`, but the Evolution `stateMap`
sends every raw state outside its four keys to `'STOPPED'` (and the WAHA
sync stores the remote status verbatim, defaulting a missing one to
`'STOPPED'`). -/
theorem c2_unmapped_statuses (raw : String) (success : Bool) (st : String)
    (hev : evolutionStateMapPairs.find? (fun p => p.1 = strLowerAscii raw)
             = none)
    (h1 : strContains (strLowerAscii st) "ready" = false)
    (h2 : strContains (strLowerAscii st) "starting" = false)
    (h3 : strContains (strLowerAscii st) "qrcode" = false)
    (h4 : strContains (strLowerAscii st) "disconnected" = false)
    (h5 : strContains (strLowerAscii st) "stopped" = false) :
    evolutionMapState raw = "STOPPED" ∧
    quepasaMapHealth success st = .FAILED := by
  constructor
  · unfold evolutionMapState
    rw [hev]
    rfl
  · unfold quepasaMapHealth
    simp [h1, h2, h3, h4, h5]

/-- Witness for the amended C2 theorem on concrete unmapped inputs. -/
theorem c2_witness :
    evolutionMapState "banana" = "STOPPED" ∧
    quepasaMapHealth true "server status is exploding" = .FAILED :=
  c2_unmapped_statuses "banana" true "server status is exploding"
    (by rfl) (by rfl) (by rfl) (by rfl) (by rfl) (by rfl)

/-! ## Claim C4 — quota refusal leaves no partial state -/

/-- C4: a non-privileged create request whose tenant is at (or beyond) its
connection cap is refused by the quota gate with a 403 quota error
(`upgradeRequired`), the registry is untouched and no remote call is made
— the gate runs strictly before the handler. -/
theorem c4_quota_refusal (req : CreateReq) (env : CreateEnv) (t : String)
    (q : QuotaRec)
    (hrole : req.role ≠ "SUPERADMIN")
    (ht : req.authTenant = some t)
    (hq : env.quotaLookup = some q)
    (hcap : q.maxConnections ≤ q.counts.whatsappSessions) :
    (postSessions req env).resp.status = 403 ∧
    (postSessions req env).resp.upgradeRequired = true ∧
    (postSessions req env).registry = env.registry ∧
    (postSessions req env).calls = [] := by
  unfold postSessions quotaMiddleware
  rw [if_neg hrole, ht, hq]
  simp [quotaPair, hcap]

/-- Witness for C4: a tenant at 3/3 connections is refused. -/
theorem c4_witness :
    (postSessions
        { role := "ADMIN", authTenant := some "tenant001",
          bodyName := some "sales" }
        { registry := [],
          quotaLookup := some { maxConnections := 3,
                                counts := { whatsappSessions := 3 } } }).resp.status
      = 403 ∧
    (postSessions
        { role := "ADMIN", authTenant := some "tenant001",
          bodyName := some "sales" }
        { registry := [],
          quotaLookup := some { maxConnections := 3,
                                counts := { whatsappSessions := 3 } } }).registry
      = [] :=
  ⟨(c4_quota_refusal _ _ "tenant001" _ (by decide) rfl rfl (by decide)).1,
   (c4_quota_refusal _ _ "tenant001" _ (by decide) rfl rfl (by decide)).2.2.1⟩

/-! ## Claim C5 — duplicate names at creation -/

/-- C5 (counterexample): the duplicate-name check does not always answer
`409 Conflict`: the quota gate is mounted before the handler, so a
duplicate create from a tenant already at its cap is refused with the 403
quota error instead of the claimed 409. -/
theorem c5_counterexample :
    trimStr "sales" ++ "_" ++ strTakeN 8 "tenant001" = "sales_tenant00" ∧
    (lookupSession
        [{ name := "sales_tenant00", status := .WORKING, provider := .WAHA,
           tenantId := some "tenant001" : Session }]
        "sales_tenant00").isSome = true ∧
    (postSessions
        { role := "ADMIN", authTenant := some "tenant001",
          bodyName := some "sales" }
        { registry := [{ name := "sales_tenant00", status := .WORKING,
                         provider := .WAHA, tenantId := some "tenant001" }],
          quotaLookup := some { maxConnections := 3,
                                counts := { whatsappSessions := 3 } } }).resp.status
      = 403 ∧
    (postSessions
        { role := "ADMIN", authTenant := some "tenant001",
          bodyName := some "sales" }
        { registry := [{ name := "sales_tenant00", status := .WORKING,
                         provider := .WAHA, tenantId := some "tenant001" }],
          quotaLookup := some { maxConnections := 3,
                                counts := { whatsappSessions := 3 } } }).resp.status
      ≠ 409 := by
  refine ⟨by decide, by decide, by decide, by decide⟩

/-- C5 (amended): once the quota gate admits the request, a create whose
derived name (`trim(name) + '_' + tenantId.substring(0,8)`) already exists
is refused with 409 before any remote call and without touching the
registry. -/
theorem c5_duplicate_conflict (req : CreateReq) (env : CreateEnv)
    (name0 tenant : String)
    (hgate : quotaMiddleware .connections "create" req.role req.authTenant
               env.quotaLookup = none)
    (hname : jsOptStr req.bodyName = some name0)
    (hprov : req.bodyProvider.getD "WAHA" = "WAHA" ∨
             req.bodyProvider.getD "WAHA" = "EVOLUTION" ∨
             req.bodyProvider.getD "WAHA" = "QUEPASA")
    (htenant : jsOptStr (if req.role = "SUPERADMIN"
                         then jsOrOpt req.bodyTenantId req.authTenant
                         else req.authTenant) = some tenant)
    (hdup : (lookupSession env.registry
               (trimStr name0 ++ "_" ++ strTakeN 8 tenant)).isSome = true) :
    (postSessions req env).resp.status = 409 ∧
    (postSessions req env).registry = env.registry ∧
    (postSessions req env).calls = [] := by
  unfold postSessions
  rw [hgate]
  unfold createSessionHandler
  rw [hname]
  simp only []
  rw [if_neg (not_not_intro hprov), htenant]
  simp only []
  rw [if_pos hdup]
  exact ⟨rfl, rfl, rfl⟩

/-- Witness for the amended C5 theorem: a SUPERADMIN (who passes the
gate) re-creating an existing name is answered 409 with no side effect. -/
theorem c5_witness :
    (postSessions
        { role := "SUPERADMIN", authTenant := some "tenant001",
          bodyName := some "sales" }
        { registry := [{ name := "sales_tenant00", status := .WORKING,
                         provider := .WAHA,
                         tenantId := some "tenant001" }] }).resp.status = 409 ∧
    (postSessions
        { role := "SUPERADMIN", authTenant := some "tenant001",
          bodyName := some "sales" }
        { registry := [{ name := "sales_tenant00", status := .WORKING,
                         provider := .WAHA,
                         tenantId := some "tenant001" }] }).calls = [] :=
  ⟨(c5_duplicate_conflict _ _ "sales" "tenant001" (by decide) (by decide)
      (by decide) (by decide) (by decide)).1,
   (c5_duplicate_conflict _ _ "sales" "tenant001" (by decide) (by decide)
      (by decide) (by decide) (by decide)).2.2⟩


/-! ## Claims C6 and C7 — pairing-artifact lifecycle at read time -/

/-- Scoped lookup through an artifact-erased registry finds the erased
version of the same row (the erasure touches neither `name` nor
`tenantId`). -/
theorem lookupScoped_erase (reg : Registry) (n : String)
    (scope : Option String) (s : Session)
    (h : lookupScoped reg n scope = some s) :
    lookupScoped (eraseQrInReg reg n) n scope = some (eraseQrFields s) := by
  unfold lookupScoped at h
  unfold lookupScoped eraseQrInReg
  induction reg with
  | nil => simp at h
  | cons a l ih =>
    have hsame :
        scopedPred n scope (if a.name = n then eraseQrFields a else a) =
          scopedPred n scope a := by
      by_cases hx : a.name = n <;> simp [hx, scopedPred, eraseQrFields]
    by_cases hp : scopedPred n scope a = true
    · rw [List.find?_cons_of_pos _ hp] at h
      injection h with h
      subst h
      have hp2 := hp
      simp only [scopedPred, Bool.and_eq_true, decide_eq_true_eq] at hp2
      have hname : a.name = n := hp2.1
      simp only [List.map_cons]
      rw [List.find?_cons_of_pos _ (by rw [hsame]; exact hp)]
      simp [hname]
    · rw [List.find?_cons_of_neg _ (by simpa using hp)] at h
      simp only [List.map_cons]
      rw [List.find?_cons_of_neg _ (by rw [hsame]; simpa using hp)]
      exact ih h

/-- The response and remote calls of the provider-routed QR logic are the
same for a session with an expired artifact and for the same session with
the artifact erased, whatever the ambient registry is: expiry is decided
at read time. -/
theorem qrForSession_expired_frame (env : QrEnv) (reg2 : Registry)
    (s : Session) (e : Nat) (hexp : s.qrExpiresAt = some e)
    (hlate : e < env.now) :
    (qrForSession { env with registry := reg2 } (eraseQrFields s)).resp
      = (qrForSession env s).resp ∧
    (qrForSession { env with registry := reg2 } (eraseQrFields s)).calls
      = (qrForSession env s).calls := by
  have hnl : ¬ (env.now < e) := by omega
  cases hp : s.provider
  case EVOLUTION =>
    cases hE : env.evolutionQrResult <;>
      simp [qrForSession, hp, hE, eraseQrFields]
  case QUEPASA =>
    by_cases hcfg : env.quepasaUrl = "" ∨ env.quepasaLogin = ""
    · simp [qrForSession, hp, eraseQrFields, hcfg]
    · cases htok : jsOptStr s.quepasaToken <;>
        cases hS : env.quepasaScanResult <;>
          simp [qrForSession, hp, eraseQrFields, hcfg, htok, hS]
  case WAHA =>
    cases hst : env.wahaStatusResult with
    | fail msg =>
      by_cases hsc : s.status = Status.SCAN_QR_CODE
      · cases hI : env.wahaQrImageResult <;>
          simp [qrForSession, wahaQrFetchTail, hp, hst, hI, eraseQrFields, hsc]
      · simp [qrForSession, hp, hst, eraseQrFields, hsc]
    | ok remoteSt =>
      by_cases hsc : s.status = Status.SCAN_QR_CODE
      · cases hI : env.wahaQrImageResult <;>
          simp [qrForSession, wahaQrFetchTail, hp, hst, hI, eraseQrFields, hsc]
      · by_cases hq1 : remoteSt = Status.SCAN_QR_CODE
        · cases hI : env.wahaQrImageResult <;>
            simp [qrForSession, wahaQrFetchTail, hp, hst, hI, eraseQrFields,
                  hsc, hq1]
        · by_cases hq2 : remoteSt = Status.WORKING
          · simp [qrForSession, hp, hst, eraseQrFields, hsc, hq1, hq2]
          · cases hqr : jsOptStr s.qr <;>
              simp [qrForSession, hp, hst, eraseQrFields, hsc, hq1, hq2, hqr,
                    hexp, hnl]

/-- C7: a pairing-artifact read with `now` strictly past `qrExpiresAt`
behaves exactly as if the stored artifact were absent — same response,
same remote calls — and, on the Quepasa pairing path, a fresh artifact is
fetched and returned on demand.  Expiry is a read-time comparison, not a
background job. -/
theorem c7_expired_read_absent (req : QrReq) (env : QrEnv) (s : Session)
    (e : Nat)
    (hfind : lookupScoped env.registry req.sessionName
               (if req.role = "SUPERADMIN" then none else req.authTenant)
               = some s)
    (hexp : s.qrExpiresAt = some e)
    (hlate : e < env.now) :
    ((getQrPipeline req
          { env with registry := eraseQrInReg env.registry req.sessionName }).resp
        = (getQrPipeline req env).resp ∧
      (getQrPipeline req
          { env with registry := eraseQrInReg env.registry req.sessionName }).calls
        = (getQrPipeline req env).calls) ∧
    (∀ payload tk, s.provider = .QUEPASA → ¬ env.quepasaUrl = "" →
      ¬ env.quepasaLogin = "" → jsOptStr s.quepasaToken = some tk →
      env.quepasaScanResult = .ok payload →
      (getQrPipeline req env).resp.qr
          = some ("data:image/png;base64," ++ payload) ∧
      (getQrPipeline req env).calls = [.quepasaScan s.name]) := by
  have hnl : ¬ (env.now < e) := by omega
  have herase := lookupScoped_erase env.registry req.sessionName
    (if req.role = "SUPERADMIN" then none else req.authTenant) s hfind
  have hpipe : getQrPipeline req env = qrForSession env s := by
    unfold getQrPipeline
    rw [hfind]
    cases hqr : jsOptStr s.qr <;> simp [hqr, hexp, hnl]
  have hpipe2 : getQrPipeline req
      { env with registry := eraseQrInReg env.registry req.sessionName }
      = qrForSession
          { env with registry := eraseQrInReg env.registry req.sessionName }
          (eraseQrFields s) := by
    unfold getQrPipeline
    rw [herase]
    simp [eraseQrFields, jsOptStr]
  constructor
  · rw [hpipe, hpipe2]
    exact qrForSession_expired_frame env _ s e hexp hlate
  · intro payload tk hprov hurl hlogin htok hscan
    rw [hpipe]
    unfold qrForSession
    rw [hprov]
    simp [hurl, hlogin, htok, hscan]

/-- Witness for C7: a Quepasa session whose artifact expired at 100 read
at 200 gives the same answer as with no artifact at all, and the answer
is the freshly scanned code. -/
theorem c7_witness :
    ((getQrPipeline
          { role := "ADMIN", authTenant := some "t1", sessionName := "q1" }
          { registry := eraseQrInReg
              [{ name := "q1", status := .SCAN_QR_CODE, provider := .QUEPASA,
                 qr := some "STALE", qrExpiresAt := some 100,
                 tenantId := some "t1", quepasaToken := some "tok" }] "q1",
            now := 200, quepasaUrl := "http://q", quepasaLogin := "admin",
            quepasaScanResult := .ok "FRESH" }).resp
      = (getQrPipeline
          { role := "ADMIN", authTenant := some "t1", sessionName := "q1" }
          { registry :=
              [{ name := "q1", status := .SCAN_QR_CODE, provider := .QUEPASA,
                 qr := some "STALE", qrExpiresAt := some 100,
                 tenantId := some "t1", quepasaToken := some "tok" }],
            now := 200, quepasaUrl := "http://q", quepasaLogin := "admin",
            quepasaScanResult := .ok "FRESH" }).resp) ∧
    (getQrPipeline
        { role := "ADMIN", authTenant := some "t1", sessionName := "q1" }
        { registry :=
            [{ name := "q1", status := .SCAN_QR_CODE, provider := .QUEPASA,
               qr := some "STALE", qrExpiresAt := some 100,
               tenantId := some "t1", quepasaToken := some "tok" }],
          now := 200, quepasaUrl := "http://q", quepasaLogin := "admin",
          quepasaScanResult := .ok "FRESH" }).resp.qr
      = some ("data:image/png;base64," ++ "FRESH") := by
  have h := c7_expired_read_absent
    { role := "ADMIN", authTenant := some "t1", sessionName := "q1" }
    { registry :=
        [{ name := "q1", status := .SCAN_QR_CODE, provider := .QUEPASA,
           qr := some "STALE", qrExpiresAt := some 100,
           tenantId := some "t1", quepasaToken := some "tok" }],
      now := 200, quepasaUrl := "http://q", quepasaLogin := "admin",
      quepasaScanResult := .ok "FRESH" }
    { name := "q1", status := .SCAN_QR_CODE, provider := .QUEPASA,
      qr := some "STALE", qrExpiresAt := some 100,
      tenantId := some "t1", quepasaToken := some "tok" }
    100 (by decide) (by decide) (by decide)
  exact ⟨h.1.1,
    (h.2 "FRESH" "tok" (by decide) (by decide) (by decide) (by decide)
      (by decide)).1⟩

/-- C6 (amended): while `now` is strictly before `qrExpiresAt`, a
fetch-pairing request for a `SCAN_QR_CODE` session returns the stored
artifact byte-for-byte, performs no remote call and leaves the registry
unchanged (the code's guard is `qrExpiresAt > new Date()`, so "unexpired"
means strictly before the deadline). -/
theorem c6_saved_qr_idempotent (req : QrReq) (env : QrEnv) (s : Session)
    (a : String) (e : Nat)
    (hfind : lookupScoped env.registry req.sessionName
               (if req.role = "SUPERADMIN" then none else req.authTenant)
               = some s)
    (_hstatus : s.status = .SCAN_QR_CODE)
    (hqr : jsOptStr s.qr = some a)
    (hexp : s.qrExpiresAt = some e)
    (hfresh : env.now < e) :
    (getQrPipeline req env).resp
        = { status := 200, qr := some a, qrExpiresAt := some e,
            sessionStatus := some s.status } ∧
    (getQrPipeline req env).registry = env.registry ∧
    (getQrPipeline req env).calls = [] := by
  unfold getQrPipeline
  rw [hfind]
  simp [hqr, hexp, hfresh]

/-- Witness for the amended C6 theorem: the stored artifact comes back
verbatim with no calls. -/
theorem c6_witness :
    (getQrPipeline
        { role := "ADMIN", authTenant := some "t1", sessionName := "q1" }
        { registry :=
            [{ name := "q1", status := .SCAN_QR_CODE, provider := .QUEPASA,
               qr := some "ARTIFACT", qrExpiresAt := some 100,
               tenantId := some "t1", quepasaToken := some "tok" }],
          now := 99 }).resp.qr = some "ARTIFACT" ∧
    (getQrPipeline
        { role := "ADMIN", authTenant := some "t1", sessionName := "q1" }
        { registry :=
            [{ name := "q1", status := .SCAN_QR_CODE, provider := .QUEPASA,
               qr := some "ARTIFACT", qrExpiresAt := some 100,
               tenantId := some "t1", quepasaToken := some "tok" }],
          now := 99 }).calls = [] := by
  have h := c6_saved_qr_idempotent
    { role := "ADMIN", authTenant := some "t1", sessionName := "q1" }
    { registry :=
        [{ name := "q1", status := .SCAN_QR_CODE, provider := .QUEPASA,
           qr := some "ARTIFACT", qrExpiresAt := some 100,
           tenantId := some "t1", quepasaToken := some "tok" }],
      now := 99 }
    { name := "q1", status := .SCAN_QR_CODE, provider := .QUEPASA,
      qr := some "ARTIFACT", qrExpiresAt := some 100,
      tenantId := some "t1", quepasaToken := some "tok" }
    "ARTIFACT" 100 (by decide) (by decide) (by decide) (by decide) (by decide)
  exact ⟨by rw [h.1], h.2.2⟩

/-- C6 (counterexample): the claim's "unexpired" is `now ≤ expiresAt`, but
at `now = expiresAt` the code's strict guard already treats the artifact
as expired: it triggers a fresh remote pairing fetch instead of returning
the stored artifact. -/
theorem c6_counterexample :
    (getQrPipeline
        { role := "ADMIN", authTenant := some "t1", sessionName := "q1" }
        { registry :=
            [{ name := "q1", status := .SCAN_QR_CODE, provider := .QUEPASA,
               qr := some "ARTIFACT", qrExpiresAt := some 100,
               tenantId := some "t1", quepasaToken := some "tok" }],
          now := 100, quepasaUrl := "http://q", quepasaLogin := "admin",
          quepasaScanResult := .ok "FRESH" }).calls ≠ [] ∧
    (getQrPipeline
        { role := "ADMIN", authTenant := some "t1", sessionName := "q1" }
        { registry :=
            [{ name := "q1", status := .SCAN_QR_CODE, provider := .QUEPASA,
               qr := some "ARTIFACT", qrExpiresAt := some 100,
               tenantId := some "t1", quepasaToken := some "tok" }],
          now := 100, quepasaUrl := "http://q", quepasaLogin := "admin",
          quepasaScanResult := .ok "FRESH" }).resp.qr ≠ some "ARTIFACT" := by
  refine ⟨by decide, by decide⟩


/-! ## Claim C8 — batch sync failure isolation -/

/-- The registry component of the shared `syncSession` tail is the
registry it was given. -/
theorem wahaSyncResult_fst (r : Registry) (n : String) :
    (wahaSyncResult r n).1 = r := by
  unfold wahaSyncResult
  cases lookupSession r n <;> rfl

/-- A sync step whose remote call fails writes nothing: `syncSession`
catches the error and falls back to the persisted row. -/
theorem wahaBatchStep_fail (adapter : String → RemoteResult WahaRemoteSession)
    (reg : Registry) (n msg : String) (h : adapter n = .fail msg) :
    wahaBatchStep adapter reg n = reg := by
  unfold wahaBatchStep wahaSyncSession
  rw [h]
  exact wahaSyncResult_fst reg n

/-- Whatever a sync step does, the registry it leaves behind is either
unchanged or one upsert keyed by the remote session's name. -/
theorem wahaBatchStep_shape (adapter : String → RemoteResult WahaRemoteSession)
    (reg : Registry) (n : String) :
    wahaBatchStep adapter reg n = reg ∨
    ∃ d : SessionData, wahaBatchStep adapter reg n = createOrUpdateSession reg d ∧
      ∃ w, adapter n = .ok w ∧ d.name = w.name := by
  unfold wahaBatchStep wahaSyncSession
  cases ha : adapter n with
  | fail msg =>
    left
    exact wahaSyncResult_fst reg n
  | ok w =>
    right
    exact ⟨wahaMergeData (lookupSession reg n) w,
      wahaSyncResult_fst _ n, w, rfl, rfl⟩

/-- A sync step for `n` leaves every other row untouched, provided the
adapter answers each query with a session of the queried name. -/
theorem wahaBatchStep_lookup_other
    (adapter : String → RemoteResult WahaRemoteSession) (reg : Registry)
    (n x : String) (hx : x ≠ n)
    (hpres : ∀ m w, adapter m = .ok w → w.name = m) :
    lookupSession (wahaBatchStep adapter reg n) x = lookupSession reg x := by
  rcases wahaBatchStep_shape adapter reg n with h | ⟨d, hd, w, hw, hdn⟩
  · rw [h]
  · rw [hd]
    apply lookupSession_upsert_other
    rw [hdn, hpres n w hw]
    exact hx

/-- A whole batch leaves rows outside the batch untouched (same adapter
proviso). -/
theorem wahaBatchSync_lookup_notmem
    (adapter : String → RemoteResult WahaRemoteSession) (names : List String)
    (reg : Registry) (x : String) (hx : x ∉ names)
    (hpres : ∀ m w, adapter m = .ok w → w.name = m) :
    lookupSession (wahaBatchSync adapter names reg) x = lookupSession reg x := by
  induction names generalizing reg with
  | nil => rfl
  | cons n l ih =>
    have hxn : x ≠ n := fun hc => hx (hc ▸ List.mem_cons_self n l)
    have hxl : x ∉ l := fun hc => hx (List.mem_cons_of_mem n hc)
    unfold wahaBatchSync at *
    rw [List.foldl_cons, ih _ hxl,
        wahaBatchStep_lookup_other adapter reg n x hxn hpres]

/-- C8: when the adapter call for one session of a batch fails, that
session's persisted row (status, pairing fields and all) is exactly what
it was before the batch, and the batch's final registry is the same as if
the failing session had not been in the list at all — the other sessions
sync exactly as they would have; the per-session try/catch means the
batch itself always completes (the embedding is a total function). -/
theorem c8_batch_failure_isolation
    (adapter : String → RemoteResult WahaRemoteSession)
    (l1 l2 : List String) (bad msg : String) (reg : Registry)
    (hfail : adapter bad = .fail msg)
    (hpres : ∀ m w, adapter m = .ok w → w.name = m)
    (h1 : bad ∉ l1) (h2 : bad ∉ l2) :
    lookupSession (wahaBatchSync adapter (l1 ++ bad :: l2) reg) bad
        = lookupSession reg bad ∧
    wahaBatchSync adapter (l1 ++ bad :: l2) reg
        = wahaBatchSync adapter (l1 ++ l2) reg := by
  have hsplit : wahaBatchSync adapter (l1 ++ bad :: l2) reg
      = wahaBatchSync adapter (l1 ++ l2) reg := by
    unfold wahaBatchSync
    rw [List.foldl_append, List.foldl_cons,
        wahaBatchStep_fail adapter _ bad msg hfail, ← List.foldl_append]
  refine ⟨?_, hsplit⟩
  rw [hsplit]
  exact wahaBatchSync_lookup_notmem adapter (l1 ++ l2) reg bad
    (by simp [h1, h2]) hpres

/-- Witness for C8: in the batch `["a", "b", "c"]` where the adapter
times out for `"b"`, the row of `"b"` survives untouched and the batch
equals the run over `["a", "c"]`. -/
theorem c8_witness :
    lookupSession
        (wahaBatchSync
          (fun n => if n = "b" then .fail "timeout"
                    else .ok { name := n, status := some .WORKING })
          ["a", "b", "c"]
          [{ name := "a", status := .STOPPED, provider := .WAHA },
           { name := "b", status := .SCAN_QR_CODE, provider := .WAHA,
             qr := some "QRB", qrExpiresAt := some 100 },
           { name := "c", status := .STOPPED, provider := .WAHA }])
        "b"
      = some { name := "b", status := .SCAN_QR_CODE, provider := .WAHA,
               qr := some "QRB", qrExpiresAt := some 100 } ∧
    wahaBatchSync
        (fun n => if n = "b" then .fail "timeout"
                  else .ok { name := n, status := some .WORKING })
        ["a", "b", "c"]
        [{ name := "a", status := .STOPPED, provider := .WAHA },
         { name := "b", status := .SCAN_QR_CODE, provider := .WAHA,
           qr := some "QRB", qrExpiresAt := some 100 },
         { name := "c", status := .STOPPED, provider := .WAHA }]
      = wahaBatchSync
          (fun n => if n = "b" then .fail "timeout"
                    else .ok { name := n, status := some .WORKING })
          ["a", "c"]
          [{ name := "a", status := .STOPPED, provider := .WAHA },
           { name := "b", status := .SCAN_QR_CODE, provider := .WAHA,
             qr := some "QRB", qrExpiresAt := some 100 },
           { name := "c", status := .STOPPED, provider := .WAHA }] := by
  have hpres : ∀ m w,
      (fun n => if n = "b" then (.fail "timeout" : RemoteResult WahaRemoteSession)
                else .ok { name := n, status := some .WORKING }) m = .ok w →
      w.name = m := by
    intro m w h
    by_cases hm : m = "b"
    · simp [hm] at h
    · simp [hm] at h
      rw [← h]
  have h := c8_batch_failure_isolation
    (fun n => if n = "b" then .fail "timeout"
              else .ok { name := n, status := some .WORKING })
    ["a"] ["c"] "b" "timeout"
    [{ name := "a", status := .STOPPED, provider := .WAHA },
     { name := "b", status := .SCAN_QR_CODE, provider := .WAHA,
       qr := some "QRB", qrExpiresAt := some 100 },
     { name := "c", status := .STOPPED, provider := .WAHA }]
    (by decide) hpres (by decide) (by decide)
  refine ⟨?_, ?_⟩
  · have h1 := h.1
    rw [show (["a"] ++ "b" :: ["c"] : List String) = ["a", "b", "c"] from rfl]
      at h1
    rw [h1]
    rfl
  · have h2 := h.2
    rw [show (["a"] ++ "b" :: ["c"] : List String) = ["a", "b", "c"] from rfl,
        show (["a"] ++ ["c"] : List String) = ["a", "c"] from rfl] at h2
    exact h2

/-! ## Claim C9 — webhook HMAC verification -/

/-- A decoded hex digit is a nibble. -/
theorem hexCharVal_lt (c : Char) (v : Nat) (h : hexCharVal c = some v) :
    v < 16 := by
  unfold hexCharVal at h
  split_ifs at h with h1 h2 h3 <;> injection h with h <;> omega

/-- A lowercase hex digit decodes, to a nibble. -/
theorem isLowerHexChar_val (c : Char) (h : isLowerHexChar c = true) :
    ∃ v, hexCharVal c = some v ∧ v < 16 := by
  unfold isLowerHexChar at h
  rw [decide_eq_true_eq] at h
  unfold hexCharVal
  rcases h with h | h
  · exact ⟨c.toNat - 48, by rw [if_pos h], by omega⟩
  · by_cases h1 : 48 ≤ c.toNat ∧ c.toNat ≤ 57
    · exact ⟨c.toNat - 48, by rw [if_pos h1], by omega⟩
    · exact ⟨c.toNat - 87, by rw [if_neg h1, if_pos h], by omega⟩

/-- `hexDigit` of a nibble is a lowercase hex digit. -/
theorem hexDigit_lower (n : Nat) (h : n < 16) :
    isLowerHexChar (hexDigit n) = true :=
  have hall : ∀ m : Fin 16, isLowerHexChar (hexDigit m.val) = true := by decide
  hall ⟨n, h⟩

/-- `hexCharVal` inverts `hexDigit` on nibbles. -/
theorem hexCharVal_hexDigit (n : Nat) (h : n < 16) :
    hexCharVal (hexDigit n) = some n :=
  have hall : ∀ m : Fin 16, hexCharVal (hexDigit m.val) = some m.val := by
    decide
  hall ⟨n, h⟩

/-- Length of the hex encoding. -/
theorem hexEncode_length (bs : List Nat) :
    (hexEncode bs).length = 2 * bs.length := by
  induction bs with
  | nil => rfl
  | cons b rest ih => simp [hexEncode, ih]; omega

/-- Every character of the hex encoding of bytes is a lowercase hex
digit. -/
theorem hexEncode_lower (bs : List Nat) (hb : ∀ b ∈ bs, b < 256) :
    ∀ c ∈ hexEncode bs, isLowerHexChar c = true := by
  induction bs with
  | nil => intro c hc; simp [hexEncode] at hc
  | cons b rest ih =>
    intro c hc
    have hblt : b < 256 := hb b (List.mem_cons_self _ _)
    simp only [hexEncode, List.mem_cons] at hc
    rcases hc with hc | hc | hc
    · exact hc ▸ hexDigit_lower _ (by omega)
    · exact hc ▸ hexDigit_lower _ (by omega)
    · exact ih (fun x hx => hb x (List.mem_cons_of_mem _ hx)) c hc

/-- Node's lenient decoder undoes the hex encoding of bytes and then
keeps going on whatever follows. -/
theorem hexDecodeLenient_encode_append (bs : List Nat) (t : List Char)
    (hb : ∀ b ∈ bs, b < 256) :
    hexDecodeLenient (hexEncode bs ++ t) = bs ++ hexDecodeLenient t := by
  induction bs with
  | nil => rfl
  | cons b rest ih =>
    have hblt : b < 256 := hb b (List.mem_cons_self _ _)
    simp only [hexEncode, List.cons_append]
    rw [hexDecodeLenient, hexCharVal_hexDigit _ (by omega : b / 16 < 16),
        hexCharVal_hexDigit _ (by omega : b % 16 < 16)]
    rw [ih (fun x hx => hb x (List.mem_cons_of_mem _ hx))]
    simp only [List.cons_append]
    congr 1
    omega

/-- Node's lenient decoder undoes the hex encoding of bytes. -/
theorem hexDecodeLenient_encode (bs : List Nat) (hb : ∀ b ∈ bs, b < 256) :
    hexDecodeLenient (hexEncode bs) = bs := by
  have h := hexDecodeLenient_encode_append bs [] hb
  rw [show hexDecodeLenient [] = [] from rfl, List.append_nil,
      List.append_nil] at h
  exact h

/-- `toBytesBE` length. -/
theorem toBytesBE_length (k : Nat) : ∀ n, (toBytesBE k n).length = k := by
  induction k with
  | zero => intro n; rfl
  | succ k ih => intro n; simp [toBytesBE, ih]

/-- `toBytesBE` produces bytes. -/
theorem toBytesBE_lt (k : Nat) : ∀ n b, b ∈ toBytesBE k n → b < 256 := by
  induction k with
  | zero => intro n b hb; simp [toBytesBE] at hb
  | succ k ih =>
    intro n b hb
    simp only [toBytesBE, List.mem_append, List.mem_singleton] at hb
    rcases hb with hb | hb
    · exact ih _ b hb
    · subst hb; exact Nat.mod_lt _ (by omega)

/-- A SHA-256 digest is 32 bytes long. -/
theorem sha256_length (m : List Nat) : (sha256 m).length = 32 := by
  unfold sha256 digestBytes
  simp [toBytesBE_length]

/-- A SHA-256 digest consists of bytes. -/
theorem sha256_lt (m : List Nat) : ∀ b ∈ sha256 m, b < 256 := by
  intro b hb
  unfold sha256 digestBytes at hb
  simp only [List.mem_append] at hb
  rcases hb with ((((((hb | hb) | hb) | hb) | hb) | hb) | hb) | hb <;>
    exact toBytesBE_lt _ _ _ hb

/-- The HMAC digest is 32 bytes long. -/
theorem hmacSha256_length (k m : List Nat) : (hmacSha256 k m).length = 32 := by
  unfold hmacSha256
  exact sha256_length _

/-- The HMAC digest consists of bytes. -/
theorem hmacSha256_lt (k m : List Nat) : ∀ b ∈ hmacSha256 k m, b < 256 := by
  unfold hmacSha256
  exact sha256_lt _

/-- The characters of the hex MAC. -/
theorem hmacSha256Hex_data (secret body : String) :
    (hmacSha256Hex secret body).data
      = hexEncode (hmacSha256 (strBytes secret) (strBytes body)) := rfl

/-- The hex MAC is 64 characters long. -/
theorem hmacSha256Hex_length (secret body : String) :
    (hmacSha256Hex secret body).data.length = 64 := by
  rw [hmacSha256Hex_data, hexEncode_length, hmacSha256_length]

/-- Every character of the hex MAC is a lowercase hex digit. -/
theorem hmacSha256Hex_lower (secret body : String) :
    ∀ c ∈ (hmacSha256Hex secret body).data, isLowerHexChar c = true := by
  rw [hmacSha256Hex_data]
  exact hexEncode_lower _ (hmacSha256_lt _ _)

/-- The decoder yields nothing exactly when no decodable pair starts the
string. -/
theorem hexDecodeLenient_eq_nil_iff (s : List Char) :
    hexDecodeLenient s = [] ↔ startsWithHexPair s = false := by
  cases s with
  | nil => simp [hexDecodeLenient, startsWithHexPair]
  | cons c1 rest =>
    cases rest with
    | nil => simp [hexDecodeLenient, startsWithHexPair]
    | cons c2 r =>
      cases hv1 : hexCharVal c1 <;> cases hv2 : hexCharVal c2 <;>
        simp [hexDecodeLenient, startsWithHexPair, hv1, hv2]

/-- The decoding of an arbitrary string equals the decoding of an
even-length lowercase-hex reference exactly when the string carries the
same hex digits (up to letter case) in its first `m.length` characters and
no decodable pair follows: the characterisation behind the amended
webhook-verification claim. -/
theorem hexDecodeLenient_eq_iff :
    ∀ m : List Char, (∀ c ∈ m, isLowerHexChar c = true) → m.length % 2 = 0 →
      ∀ s : List Char,
        (hexDecodeLenient s = hexDecodeLenient m ↔
          ((s.take m.length).map hexCharVal = m.map hexCharVal ∧
            startsWithHexPair (s.drop m.length) = false))
  | [], _, _, s => by
    simp only [List.length_nil, List.take_zero, List.map_nil, List.drop_zero,
      true_and]
    rw [show hexDecodeLenient [] = [] from rfl]
    exact hexDecodeLenient_eq_nil_iff s
  | [c], hm, heven, s => by
    exact absurd heven (by simp)
  | c1 :: c2 :: mr, hm, heven, s => by
    obtain ⟨v1, hv1, hlt1⟩ :=
      isLowerHexChar_val c1 (hm c1 (List.mem_cons_self _ _))
    obtain ⟨v2, hv2, hlt2⟩ :=
      isLowerHexChar_val c2 (hm c2 (List.mem_cons_of_mem _ (List.mem_cons_self _ _)))
    have hmr : ∀ c ∈ mr, isLowerHexChar c = true := fun c hc =>
      hm c (List.mem_cons_of_mem _ (List.mem_cons_of_mem _ hc))
    have hevenmr : mr.length % 2 = 0 := by
      simp only [List.length_cons] at heven
      omega
    have ih := hexDecodeLenient_eq_iff mr hmr hevenmr
    have hdm : hexDecodeLenient (c1 :: c2 :: mr)
        = (16 * v1 + v2) :: hexDecodeLenient mr := by
      rw [hexDecodeLenient, hv1, hv2]
    cases s with
    | nil =>
      constructor
      · intro h
        rw [hdm] at h
        exact absurd h.symm (by simp [hexDecodeLenient])
      · intro h
        have := congrArg List.length h.1
        simp at this
    | cons d1 srest =>
      cases srest with
      | nil =>
        constructor
        · intro h
          rw [hdm] at h
          exact absurd h.symm (by simp [hexDecodeLenient])
        · intro h
          have h1 := h.1
          rw [List.take_of_length_le (by simp)] at h1
          have hlen := congrArg List.length h1
          simp only [List.length_map, List.length_cons, List.length_nil] at hlen
          omega
      | cons d2 sr =>
        cases hd1 : hexCharVal d1 with
        | none =>
          constructor
          · intro h
            rw [hdm, hexDecodeLenient, hd1] at h
            exact absurd h.symm (by simp)
          · intro h
            have h1 := h.1
            simp only [List.length_cons, List.take_succ_cons, List.map_cons,
              hd1, hv1, List.cons.injEq] at h1
            exact absurd h1.1 (by simp)
        | some w1 =>
          cases hd2 : hexCharVal d2 with
          | none =>
            constructor
            · intro h
              rw [hdm, hexDecodeLenient, hd1, hd2] at h
              exact absurd h.symm (by simp)
            · intro h
              have h1 := h.1
              simp only [List.length_cons, List.take_succ_cons, List.map_cons,
                hd1, hd2, hv1, hv2, List.cons.injEq] at h1
              exact absurd h1.2.1 (by simp)
          | some w2 =>
            have hw1 : w1 < 16 := hexCharVal_lt d1 w1 hd1
            have hw2 : w2 < 16 := hexCharVal_lt d2 w2 hd2
            have hds : hexDecodeLenient (d1 :: d2 :: sr)
                = (16 * w1 + w2) :: hexDecodeLenient sr := by
              rw [hexDecodeLenient, hd1, hd2]
            rw [hds, hdm]
            constructor
            · intro h
              injection h with hb ht
              have hv : w1 = v1 ∧ w2 = v2 := by omega
              have hih := (ih sr).mp ht
              refine ⟨?_, ?_⟩
              · simp only [List.length_cons, List.take_succ_cons,
                  List.map_cons, hd1, hd2, hv1, hv2, hv.1, hv.2, hih.1]
              · simpa [List.drop_succ_cons] using hih.2
            · intro h
              have h1 := h.1
              simp only [List.length_cons, List.take_succ_cons, List.map_cons,
                hd1, hd2, hv1, hv2, List.cons.injEq] at h1
              obtain ⟨hw1v, hw2v, htail⟩ := h1
              have ht := (ih sr).mpr
                ⟨htail, by simpa [List.drop_succ_cons] using h.2⟩
              injection hw1v with hw1v
              injection hw2v with hw2v
              rw [ht, hw1v, hw2v]

/-- A string without `'s'` is untouched by stripping `'sha256='`. -/
theorem replaceFirstL_no_s (l : List Char) (h : ∀ c ∈ l, c ≠ 's') :
    replaceFirstL "sha256=".data l = l := by
  induction l with
  | nil => rfl
  | cons c rest ih =>
    have hc : c ≠ 's' := h c (List.mem_cons_self _ _)
    have hdata : "sha256=".data = 's' :: "ha256=".data := rfl
    have hpre : isPrefixL "sha256=".data (c :: rest) = false := by
      rw [hdata, isPrefixL]
      have : ('s' == c) = false := by
        simp [beq_iff_eq]
        exact fun hcc => hc hcc.symm
      simp [this]
    rw [replaceFirstL, hpre]
    simp only [if_neg (by simp : ¬ (false = true))]
    rw [ih (fun x hx => h x (List.mem_cons_of_mem _ hx))]

/-- String-level version of `replaceFirstL_no_s`. -/
theorem stripFirstStr_no_s (s : String) (h : ∀ c ∈ s.data, c ≠ 's') :
    stripFirstStr "sha256=" s = s := by
  unfold stripFirstStr
  rw [replaceFirstL_no_s _ h]

/-- A lowercase hex digit is never `'s'`. -/
theorem isLowerHexChar_ne_s (c : Char) (h : isLowerHexChar c = true) :
    c ≠ 's' := by
  intro hc
  subst hc
  exact absurd h (by decide)

/-- C9 (amended): webhook verification accepts a signature exactly when,
after stripping the first `'sha256='` occurrence, its first 64 characters
denote the same hex digits as the expected MAC (so equality holds only up
to letter case) and no further decodable hex pair follows (trailing
garbage such as a lone digit or non-hex characters is ignored by Node's
lenient `Buffer.from(·, 'hex')`); a mutation that changes the decoded
bytes is rejected, and any malformed input yields `false` rather than an
exception (the comparison is total). -/
theorem c9_hmac_accept_characterisation (sig body secret : String) :
    validateHmacSignature sig body secret = true ↔
      sigAcceptSpec sig (hmacSha256Hex secret body) := by
  have hmacb := hmacSha256_lt (strBytes secret) (strBytes body)
  have hlower := hmacSha256Hex_lower secret body
  have hlen := hmacSha256Hex_length secret body
  have heven : (hmacSha256Hex secret body).data.length % 2 = 0 := by
    rw [hlen]
  have hiff := hexDecodeLenient_eq_iff (hmacSha256Hex secret body).data
    hlower heven (stripFirstStr "sha256=" sig).data
  have hslen : (hmacSha256Hex secret body).length
      = (hmacSha256Hex secret body).data.length := rfl
  simp only [validateHmacSignature, sigAcceptSpec, hslen]
  constructor
  · intro h
    by_cases hl : (hexDecodeLenient (hmacSha256Hex secret body).data).length
        = (hexDecodeLenient (stripFirstStr "sha256=" sig).data).length
    · rw [if_pos hl, decide_eq_true_eq] at h
      exact hiff.mp h.symm
    · rw [if_neg hl] at h
      exact absurd h (by simp)
  · intro hspec
    have hdec := hiff.mpr hspec
    rw [if_pos (congrArg List.length hdec).symm, decide_eq_true_eq]
    exact hdec.symm

set_option maxRecDepth 4096 in
/-- C9 (counterexample): the claim's "accepts iff the stripped signature
equals the hex MAC" fails in the only-if direction: appending the non-hex
junk `"zz"` to the correct hex MAC leaves Node's lenient hex decoding —
and hence acceptance — unchanged, while the stripped signature no longer
equals the MAC. -/
theorem c9_counterexample :
    validateHmacSignature (hmacSha256Hex "k" "m" ++ "zz") "m" "k" = true ∧
    stripFirstStr "sha256=" (hmacSha256Hex "k" "m" ++ "zz")
      = hmacSha256Hex "k" "m" ++ "zz" ∧
    hmacSha256Hex "k" "m" ++ "zz" ≠ hmacSha256Hex "k" "m" := by
  have hmacb := hmacSha256_lt (strBytes "k") (strBytes "m")
  have hlower := hmacSha256Hex_lower "k" "m"
  have hdata : (hmacSha256Hex "k" "m" ++ "zz").data
      = (hmacSha256Hex "k" "m").data ++ ['z', 'z'] := by
    cases hmac : hmacSha256Hex "k" "m"
    rfl
  have hnos : ∀ c ∈ (hmacSha256Hex "k" "m" ++ "zz").data, c ≠ 's' := by
    intro c hc
    rw [hdata] at hc
    rcases List.mem_append.mp hc with hc | hc
    · exact isLowerHexChar_ne_s c (hlower c hc)
    · simp only [List.mem_cons, List.not_mem_nil, or_false] at hc
      rcases hc with hc | hc <;> (subst hc; decide)
  have hstrip : stripFirstStr "sha256=" (hmacSha256Hex "k" "m" ++ "zz")
      = hmacSha256Hex "k" "m" ++ "zz" := stripFirstStr_no_s _ hnos
  have hdecodes :
      hexDecodeLenient ((hmacSha256Hex "k" "m") ++ "zz").data
        = hexDecodeLenient (hmacSha256Hex "k" "m").data := by
    rw [hdata, hmacSha256Hex_data]
    rw [hexDecodeLenient_encode_append _ _ hmacb,
        hexDecodeLenient_encode _ hmacb]
    rw [show hexDecodeLenient ['z', 'z'] = [] from rfl, List.append_nil]
  refine ⟨?_, hstrip, ?_⟩
  · simp only [validateHmacSignature]
    rw [hstrip, hdecodes, if_pos rfl, decide_eq_true_eq]
  · intro hne
    have hl := congrArg String.length hne
    rw [String.length_append,
        show ("zz" : String).length = 2 from rfl] at hl
    omega

/-- Witness pinning the C9 characterisation at a concrete signature. -/
theorem c9_witness :
    validateHmacSignature "deadbeef" "body" "secret" = true ↔
      sigAcceptSpec "deadbeef" (hmacSha256Hex "secret" "body") :=
  c9_hmac_accept_characterisation "deadbeef" "body" "secret"

end Astra
